import Mathlib

/-!
Shallow embedding of the load-time bootstrap in `modin/pandas/__init__.py`:
the pandas version gate, the `OMP_NUM_THREADS` environment write, the
`initialize_ray` function (cluster/local dispatch, object-store memory budget,
serializer registration, `move_stdlib_ahead_of_site_packages` path
normalization, worker propagation), the execution-engine dispatch and the
`DEFAULT_NPARTITIONS` derivation.

Python floats in the memory formula (`0.6 * mem // 10**9 * 10**9`) are
modelled by exact rational/integer arithmetic; the concrete inputs appearing
below evaluate identically under IEEE doubles and exact arithmetic.
-/

namespace Modin

/-- Prefix test on character lists: `startsWithChars needle hay` is true when
`needle` is an initial segment of `hay`. -/
def startsWithChars : List Char → List Char → Bool
  | [], _ => true
  | _ :: _, [] => false
  | c :: cs, d :: ds => c == d && startsWithChars cs ds

/-- Substring containment on character lists, modelling Python `needle in hay`. -/
def containsChars (needle : List Char) : List Char → Bool
  | [] => startsWithChars needle []
  | c :: cs => startsWithChars needle (c :: cs) || containsChars needle cs

/-- Python `needle in hay` on strings (substring containment). -/
def strContains (hay needle : String) : Bool :=
  containsChars needle.data hay.data

/-- Python `s.endswith(suf)`. -/
def strEndsWith (s suf : String) : Bool :=
  startsWithChars suf.data.reverse s.data.reverse

/-- `os.path.dirname` (posix): everything up to the last slash, with trailing
slashes stripped unless the head is empty or consists only of slashes. -/
def dirname (s : String) : String :=
  let cs := s.data
  let head := (cs.reverse.dropWhile (fun c => c != '/')).reverse
  if head.isEmpty then ""
  else if head.all (fun c => c == '/') then String.mk head
  else String.mk ((head.reverse.dropWhile (fun c => c == '/')).reverse)

/-- One step of Python `str.title()`: the Bool records whether the previous
character was alphabetic. -/
def pyTitleGo : Bool → List Char → List Char
  | _, [] => []
  | prevAlpha, c :: cs =>
    if c.isAlpha then
      (if prevAlpha then c.toLower else c.toUpper) :: pyTitleGo true cs
    else
      c :: pyTitleGo false cs

/-- Python `s.title()` (ASCII model): first letter of each alphabetic run is
uppercased, the rest lowercased. -/
def pyTitle (s : String) : String :=
  String.mk (pyTitleGo false s.data)

/-- Value of a nonempty all-digit character list, `Option.none` otherwise. -/
def digitsVal? (cs : List Char) : Option ℕ :=
  match cs with
  | [] => Option.none
  | _ :: _ =>
    cs.foldl
      (fun acc c =>
        match acc with
        | Option.none => Option.none
        | some n => if c.isDigit then some (n * 10 + (c.toNat - 48)) else Option.none)
      (some 0)

/-- Python `int(s)` on an optionally-signed decimal literal: `some n` on
success, `Option.none` when the string is not a valid integer literal (the
source then raises `ValueError`). -/
def pyIntOfString (s : String) : Option ℤ :=
  match s.data with
  | '-' :: rest =>
    match digitsVal? rest with
    | some n => some (-(n : ℤ))
    | Option.none => Option.none
  | '+' :: rest =>
    match digitsVal? rest with
    | some n => some ((n : ℤ))
    | Option.none => Option.none
  | cs =>
    match digitsVal? cs with
    | some n => some ((n : ℤ))
    | Option.none => Option.none

/-- Python `int(x)` on a real number: truncation toward zero. -/
def pyInt (q : ℚ) : ℤ :=
  if 0 ≤ q then ⌊q⌋ else ⌈q⌉

/-- The environment variables read by `initialize_ray`: `MODIN_RAY_CLUSTER`,
`MODIN_REDIS_ADDRESS`, `MODIN_MEMORY`, `MODIN_OUT_OF_CORE`; `Option.none`
means the variable is unset. -/
structure RayConfig where
  cluster : Option String
  redis_address : Option String
  memory : Option String
  out_of_core : Option String
deriving DecidableEq

/-- The value of the Python variable `object_store_memory`, which holds
`None`, a string from the environment, or an integer, depending on the
program point. -/
inductive PyVal
  | none
  | str (s : String)
  | int (n : ℤ)
deriving DecidableEq

/-- A call made on the ray backend by `initialize_ray` or the module body.
`init` records the keyword arguments `plasma_directory`,
`object_store_memory` and `redis_address` that the source passes
(`Option.none` models Python `None` / an omitted argument). -/
inductive RayOp
  | init (plasma_directory : Option String) (object_store_memory : Option ℤ)
      (redis_address : Option String)
  | register_custom_serializer
  | run_function_on_all_workers
  | cluster_resources
deriving DecidableEq

/-- An observable step performed by the module body of
`modin/pandas/__init__.py` during import. -/
inductive Step
  | reExports
  | envSet (key val : String)
  | ray (op : RayOp)
  | daskInit
deriving DecidableEq

/-- `int(0.6 * ray.utils.get_system_memory() // 10**9 * 10**9)`: 60% of
system memory floored to a whole number of gigabytes (exact-arithmetic model
of the float expression; `0.6 * mem // 10**9` equals `⌊3 mem / (5·10⁹)⌋`). -/
def inCoreBudget (mem : ℕ) : ℕ :=
  3 * mem / (5 * 10 ^ 9) * 10 ^ 9

/-- Out-of-core default: `8 * (get_system_memory() // 10**9 * 10**9)`. -/
def oocBudget (mem : ℕ) : ℕ :=
  8 * (mem / 10 ^ 9 * 10 ^ 9)

/-- The loop condition in `move_stdlib_ahead_of_site_packages`:
`sys.exec_prefix in path and path.endswith("site-packages")`. -/
def matchesSitePackages (execPref p : String) : Bool :=
  strContains p execPref && strEndsWith p "site-packages"

/-- `move_stdlib_ahead_of_site_packages`: scan `sys.path` for the first entry
matching `matchesSitePackages`; if found, insert `os.path.dirname` of that
entry immediately before it; otherwise leave the path unchanged. -/
def moveStdlibAheadOfSitePackages (execPref : String) : List String → List String
  | [] => []
  | p :: rest =>
    if matchesSitePackages execPref p then dirname p :: p :: rest
    else p :: moveStdlibAheadOfSitePackages execPref rest

/-- The final coercion of `object_store_memory` before `ray.init`: `None`
triggers the in-core computation (with the `== 0 → None` guard), while a
string or integer value goes through Python `int()` — a non-numeric string
raises `ValueError`. -/
def coerceObjectStoreMemory (v : PyVal) (systemMemory : ℕ) :
    Except String (Option ℤ) :=
  match v with
  | PyVal.none =>
    Except.ok
      (if inCoreBudget systemMemory = 0 then Option.none
       else some ((inCoreBudget systemMemory : ℤ)))
  | PyVal.str s =>
    match pyIntOfString s with
    | some n => Except.ok (some n)
    | Option.none =>
      Except.error ("ValueError: invalid literal for int with base 10: " ++ s)
  | PyVal.int n => Except.ok (some n)

/-- `initialize_ray()`: returns the ordered list of ray-backend calls it
performs, or the exception it raises. The body runs only on the thread named
`MainThread`. `systemMemory` models `ray.utils.get_system_memory()` and
`tempdir` models `tempfile.gettempdir()`. -/
def initRay (cfg : RayConfig) (systemMemory : ℕ) (tempdir threadName : String) :
    Except String (List RayOp) :=
  if threadName == "MainThread" then
    if cfg.cluster == some "True" && cfg.redis_address.isSome then
      Except.ok
        [RayOp.init Option.none Option.none cfg.redis_address,
         RayOp.register_custom_serializer,
         RayOp.run_function_on_all_workers]
    else if cfg.cluster == Option.none then
      let osm0 : PyVal :=
        match cfg.memory with
        | Option.none => PyVal.none
        | some s => PyVal.str s
      let ooc : Bool := pyTitle (cfg.out_of_core.getD "False") == "True"
      let plasma_directory : Option String :=
        if ooc then some tempdir else Option.none
      let osm1 : PyVal :=
        if ooc then
          match osm0 with
          | PyVal.none => PyVal.int ((oocBudget systemMemory : ℤ))
          | v => v
        else osm0
      match coerceObjectStoreMemory osm1 systemMemory with
      | Except.error e => Except.error e
      | Except.ok osm =>
        Except.ok
          [RayOp.init plasma_directory osm cfg.redis_address,
           RayOp.register_custom_serializer,
           RayOp.run_function_on_all_workers]
    else
      Except.ok
        [RayOp.register_custom_serializer,
         RayOp.run_function_on_all_workers]
  else
    Except.ok []

/-- `DEFAULT_NPARTITIONS = max(4, int(num_cpus))`. -/
def defaultNPartitions (num_cpus : ℚ) : ℤ :=
  max 4 (pyInt num_cpus)

/-- The pandas version string the module requires. -/
def requiredPandasVersion : String := "0.25.2"

/-- The message of the `ImportError` raised on a pandas version mismatch. -/
def pandasMismatchMsg : String :=
  "The pandas version installed does not match the required pandas " ++
  "version in Modin. Please install pandas 0.25.2 to use Modin."

/-- Module body of `modin/pandas/__init__.py`: the pandas version gate, the
re-export block, the `OMP_NUM_THREADS` write, the execution-engine dispatch
and the `DEFAULT_NPARTITIONS` derivation. Returns the ordered trace of steps
performed together with either the resulting `DEFAULT_NPARTITIONS` or the
exception raised. `rayCPUs` models `ray.cluster_resources()["CPU"]` (a
float) and `daskCPUs` models `sum(client.ncores().values())`. -/
def modinImport (pandasVersion engine : String) (cfg : RayConfig)
    (systemMemory : ℕ) (tempdir threadName : String) (rayCPUs : ℚ)
    (daskCPUs : ℕ) : List Step × Except String ℤ :=
  if pandasVersion != requiredPandasVersion then
    ([], Except.error pandasMismatchMsg)
  else
    let pre : List Step := [Step.reExports, Step.envSet "OMP_NUM_THREADS" "1"]
    let rest : List Step × Except String ℤ :=
      if engine == "Ray" then
        match initRay cfg systemMemory tempdir threadName with
        | Except.error e => ([], Except.error e)
        | Except.ok ops =>
          (ops.map Step.ray ++ [Step.ray RayOp.cluster_resources],
           Except.ok (defaultNPartitions rayCPUs))
      else if engine == "Dask" then
        if threadName == "MainThread" then
          ([Step.daskInit], Except.ok (defaultNPartitions ((daskCPUs : ℚ))))
        else
          ([], Except.ok (defaultNPartitions 1))
      else if engine != "Python" then
        ([], Except.error ("Unrecognized execution engine: " ++ engine ++ "."))
      else
        ([], Except.ok (defaultNPartitions 1))
    (pre ++ rest.1, rest.2)

theorem moveStdlib_of_no_match (e : String) (p : List String)
    (h : ∀ x ∈ p, matchesSitePackages e x = false) :
    moveStdlibAheadOfSitePackages e p = p := by
  induction p with
  | nil => rfl
  | cons a rest ih =>
    have ha := h a (List.mem_cons_self a rest)
    have hrest := ih fun x hx => h x (List.mem_cons_of_mem a hx)
    simp [moveStdlibAheadOfSitePackages, ha, hrest]

theorem moveStdlib_length_of_match (e : String) (p : List String)
    (h : ∃ x ∈ p, matchesSitePackages e x = true) :
    (moveStdlibAheadOfSitePackages e p).length = p.length + 1 := by
  induction p with
  | nil => simp at h
  | cons a rest ih =>
    by_cases ha : matchesSitePackages e a = true
    · simp [moveStdlibAheadOfSitePackages, ha]
    · have h2 : ∃ x ∈ rest, matchesSitePackages e x = true := by
        obtain ⟨x, hx, hm⟩ := h
        rcases List.mem_cons.mp hx with rfl | hx2
        · exact absurd hm ha
        · exact ⟨x, hx2, hm⟩
      simp [moveStdlibAheadOfSitePackages, ha, ih h2]

theorem moveStdlib_match_mem (e : String) (p : List String)
    (h : ∃ x ∈ p, matchesSitePackages e x = true) :
    ∃ x ∈ moveStdlibAheadOfSitePackages e p, matchesSitePackages e x = true := by
  induction p with
  | nil => simp at h
  | cons a rest ih =>
    by_cases ha : matchesSitePackages e a = true
    · exact ⟨a, by simp [moveStdlibAheadOfSitePackages, ha], ha⟩
    · have h2 : ∃ x ∈ rest, matchesSitePackages e x = true := by
        obtain ⟨x, hx, hm⟩ := h
        rcases List.mem_cons.mp hx with rfl | hx2
        · exact absurd hm ha
        · exact ⟨x, hx2, hm⟩
      obtain ⟨x, hx, hm⟩ := ih h2
      exact ⟨x, by simp [moveStdlibAheadOfSitePackages, ha, hx], hm⟩

/-- C6 (counterexample): the worker search-path normalization is not
idempotent. For `sys.exec_prefix = "/usr"` and
`sys.path = ["/usr/lib/python3.7/site-packages"]`, the first application
inserts `"/usr/lib/python3.7"`; that inserted entry does not end in
`"site-packages"`, so the second application finds the original entry again
and inserts a second copy — there is no detection of a prior insertion. -/
theorem c6_normalize_not_idempotent_counterexample :
    moveStdlibAheadOfSitePackages "/usr"
        (moveStdlibAheadOfSitePackages "/usr" ["/usr/lib/python3.7/site-packages"]) ≠
      moveStdlibAheadOfSitePackages "/usr" ["/usr/lib/python3.7/site-packages"] := by
  decide

/-- C6 (amended): the normalization is idempotent only on search paths with
no matching segment (those are returned unchanged); whenever some segment is
rooted under the exec prefix and ends in `site-packages`, every application
inserts one more corrective entry, so applying it twice never equals applying
it once. -/
theorem c6_normalize_idempotence_amended (e : String) (p : List String)
    (h : ∃ x ∈ p, matchesSitePackages e x = true) :
    moveStdlibAheadOfSitePackages e (moveStdlibAheadOfSitePackages e p) ≠
      moveStdlibAheadOfSitePackages e p ∧
    ∀ q : List String, (∀ x ∈ q, matchesSitePackages e x = false) →
      moveStdlibAheadOfSitePackages e q = q := by
  constructor
  · intro heq
    have k1 := moveStdlib_length_of_match e p h
    have k2 := moveStdlib_length_of_match e (moveStdlibAheadOfSitePackages e p)
      (moveStdlib_match_mem e p h)
    rw [heq] at k2
    omega
  · exact fun q hq => moveStdlib_of_no_match e q hq

/-- C6 (witness): the amended theorem applied to a concrete matching path and
a concrete non-matching path. -/
theorem c6_normalize_idempotence_amended_witness :
    moveStdlibAheadOfSitePackages "/opt"
        (moveStdlibAheadOfSitePackages "/opt" ["/opt/py/site-packages", "/other"]) ≠
      moveStdlibAheadOfSitePackages "/opt" ["/opt/py/site-packages", "/other"] ∧
    moveStdlibAheadOfSitePackages "/opt" ["/a", "/b"] = ["/a", "/b"] :=
  ⟨(c6_normalize_idempotence_amended "/opt" ["/opt/py/site-packages", "/other"]
      ⟨"/opt/py/site-packages", by decide, by decide⟩).1,
   (c6_normalize_idempotence_amended "/opt" ["/opt/py/site-packages", "/other"]
      ⟨"/opt/py/site-packages", by decide, by decide⟩).2 ["/a", "/b"] (by decide)⟩

/-- C7 (counterexample): with `MODIN_RAY_CLUSTER = "True"` and
`MODIN_REDIS_ADDRESS` unset, `initialize_ray` raises no error and performs no
`ray.init` call at all: the cluster branch requires a redis address and the
local branch requires `MODIN_RAY_CLUSTER` to be unset, so initialization is
silently skipped (only the serializer registration and the worker
normalization broadcast still run), contradicting the claim that this
configuration fails fast with a `ConfigurationError`. -/
theorem c7_missing_address_counterexample :
    initRay ⟨some "True", Option.none, Option.none, Option.none⟩ (10 ^ 10) "/tmp"
        "MainThread" =
      Except.ok [RayOp.register_custom_serializer, RayOp.run_function_on_all_workers] :=
  rfl

/-- C7 (amended): when cluster mode is requested (`MODIN_RAY_CLUSTER =
"True"`) but no coordinator address is configured, the bootstrap silently
skips cluster initialization — for every memory override, out-of-core
setting, system memory and temp directory it returns successfully with no
`init` call and no error. -/
theorem c7_missing_address_amended (mem ooc : Option String) (m : ℕ) (td : String) :
    initRay ⟨some "True", Option.none, mem, ooc⟩ m td "MainThread" =
      Except.ok [RayOp.register_custom_serializer, RayOp.run_function_on_all_workers] :=
  rfl

/-- C8 (counterexample): the override `MODIN_MEMORY = "-5"` is not a
configuration error: `initialize_ray` forwards `-5` unchanged to `ray.init`
as `object_store_memory`. -/
theorem c8_negative_override_counterexample :
    initRay ⟨Option.none, Option.none, some "-5", Option.none⟩ (10 ^ 10) "/tmp"
        "MainThread" =
      Except.ok [RayOp.init Option.none (some (-5)) Option.none,
        RayOp.register_custom_serializer, RayOp.run_function_on_all_workers] :=
  rfl

/-- C8 (amended): a non-numeric memory override raises a `ValueError` at the
`int()` coercion (so the bootstrap does fail on it), but a numeric override —
negative ones included — is forwarded to the backend exactly as parsed,
neither rejected nor clamped. -/
theorem c8_override_coercion_amended (s t : String) (n : ℤ) (m : ℕ) (td : String)
    (hs : pyIntOfString s = some n) (ht : pyIntOfString t = Option.none) :
    initRay ⟨Option.none, Option.none, some s, Option.none⟩ m td "MainThread" =
      Except.ok [RayOp.init Option.none (some n) Option.none,
        RayOp.register_custom_serializer, RayOp.run_function_on_all_workers] ∧
    initRay ⟨Option.none, Option.none, some t, Option.none⟩ m td "MainThread" =
      Except.error ("ValueError: invalid literal for int with base 10: " ++ t) := by
  have hpt : pyTitle "False" = "False" := rfl
  constructor
  · simp [initRay, coerceObjectStoreMemory, hs, hpt]
  · simp [initRay, coerceObjectStoreMemory, ht, hpt]

/-- C1: `DEFAULT_NPARTITIONS = max(4, int(num_cpus))` agrees with
`max(4, floor(reportedCPUs))` for every rational CPU count (Python `int()`
truncates toward zero, but the two differ only below 4 where the `max`
absorbs them); and with the `"Python"` engine the import performs only the
re-exports and the `OMP_NUM_THREADS` write — no ray or dask backend call —
leaves `num_cpus` at its initial value 1, and yields
`DEFAULT_NPARTITIONS = 4`. -/
theorem c1_default_partition_count (q : ℚ) (cfg : RayConfig) (m : ℕ)
    (td th : String) (d : ℕ) :
    defaultNPartitions q = max 4 ⌊q⌋ ∧
    modinImport "0.25.2" "Python" cfg m td th q d =
      ([Step.reExports, Step.envSet "OMP_NUM_THREADS" "1"],
       Except.ok (defaultNPartitions 1)) ∧
    defaultNPartitions 1 = 4 := by
  refine ⟨?_, rfl, by decide⟩
  unfold defaultNPartitions pyInt
  by_cases h : 0 ≤ q
  · rw [if_pos h]
  · rw [if_neg h]
    push_neg at h
    have h1 : ⌈q⌉ ≤ 0 := Int.ceil_le.mpr (by exact_mod_cast h.le)
    have h2 : ⌊q⌋ ≤ ⌈q⌉ := Int.floor_le_ceil q
    omega

/-- C2: the engine dispatch is case-sensitive: any string other than
`"Ray"`, `"Dask"` and `"Python"` makes the import fail with an
`ImportError` naming the offending value, after only the re-exports and the
environment write (no backend init, no partition count is produced);
`"Ray"` runs the ray bootstrap (init, serializer registration, worker
broadcast, `cluster_resources`), `"Dask"` initializes a dask client, and
`"Python"` performs no backend work. -/
theorem c2_engine_dispatch (e : String) (cfg : RayConfig) (m : ℕ)
    (td th : String) (q : ℚ) (d : ℕ)
    (hr : e ≠ "Ray") (hd : e ≠ "Dask") (hp : e ≠ "Python") :
    modinImport "0.25.2" e cfg m td th q d =
      ([Step.reExports, Step.envSet "OMP_NUM_THREADS" "1"],
       Except.error ("Unrecognized execution engine: " ++ e ++ ".")) ∧
    modinImport "0.25.2" "Ray" ⟨Option.none, Option.none, Option.none, Option.none⟩
        (10 ^ 10) "/tmp" "MainThread" q d =
      ([Step.reExports, Step.envSet "OMP_NUM_THREADS" "1",
        Step.ray (RayOp.init Option.none (some 6000000000) Option.none),
        Step.ray RayOp.register_custom_serializer,
        Step.ray RayOp.run_function_on_all_workers,
        Step.ray RayOp.cluster_resources],
       Except.ok (defaultNPartitions q)) ∧
    modinImport "0.25.2" "Dask" cfg m td "MainThread" q d =
      ([Step.reExports, Step.envSet "OMP_NUM_THREADS" "1", Step.daskInit],
       Except.ok (defaultNPartitions ((d : ℚ)))) ∧
    modinImport "0.25.2" "Python" cfg m td th q d =
      ([Step.reExports, Step.envSet "OMP_NUM_THREADS" "1"],
       Except.ok (defaultNPartitions 1)) := by
  have h1 : (e == "Ray") = false := beq_eq_false_iff_ne.mpr hr
  have h2 : (e == "Dask") = false := beq_eq_false_iff_ne.mpr hd
  have h3 : (e != "Python") = true := bne_iff_ne.mpr hp
  refine ⟨?_, rfl, rfl, rfl⟩
  simp [modinImport, requiredPandasVersion, h1, h2, h3]

/-- C2 (witness): the lowercase string `"ray"` is not recognized — the
dispatch is case-sensitive and the error message names the value. -/
theorem c2_engine_dispatch_witness :
    modinImport "0.25.2" "ray" ⟨Option.none, Option.none, Option.none, Option.none⟩
        0 "/tmp" "MainThread" 1 0 =
      ([Step.reExports, Step.envSet "OMP_NUM_THREADS" "1"],
       Except.error ("Unrecognized execution engine: " ++ "ray" ++ ".")) :=
  (c2_engine_dispatch "ray" ⟨Option.none, Option.none, Option.none, Option.none⟩
    0 "/tmp" "MainThread" 1 0 (by decide) (by decide) (by decide)).1

/-- C3: the memory-budget candidate priority: a present (parseable) override
wins, even out-of-core, and out-of-core still sets the temp-directory spill
path; with no override, out-of-core yields `8 × (mem // 1e9) × 1e9`; with
neither, the in-core candidate is `int(0.6 × mem // 1e9 × 1e9)` (subject to
the zero guard); out-of-core at 2 GB of system memory gives
16_000_000_000. -/
theorem c3_memory_budget_priority (s : String) (n : ℤ) (m : ℕ) (td : String)
    (h : pyIntOfString s = some n) :
    initRay ⟨Option.none, Option.none, some s, some "True"⟩ m td "MainThread" =
      Except.ok [RayOp.init (some td) (some n) Option.none,
        RayOp.register_custom_serializer, RayOp.run_function_on_all_workers] ∧
    initRay ⟨Option.none, Option.none, some s, Option.none⟩ m td "MainThread" =
      Except.ok [RayOp.init Option.none (some n) Option.none,
        RayOp.register_custom_serializer, RayOp.run_function_on_all_workers] ∧
    initRay ⟨Option.none, Option.none, Option.none, some "True"⟩ m td "MainThread" =
      Except.ok [RayOp.init (some td) (some ((oocBudget m : ℤ))) Option.none,
        RayOp.register_custom_serializer, RayOp.run_function_on_all_workers] ∧
    oocBudget m = 8 * (m / 10 ^ 9) * 10 ^ 9 ∧
    initRay ⟨Option.none, Option.none, Option.none, some "True"⟩ (2 * 10 ^ 9) td
        "MainThread" =
      Except.ok [RayOp.init (some td) (some 16000000000) Option.none,
        RayOp.register_custom_serializer, RayOp.run_function_on_all_workers] ∧
    initRay ⟨Option.none, Option.none, Option.none, Option.none⟩ m td "MainThread" =
      Except.ok [RayOp.init Option.none
        (if inCoreBudget m = 0 then Option.none else some ((inCoreBudget m : ℤ)))
        Option.none,
        RayOp.register_custom_serializer, RayOp.run_function_on_all_workers] := by
  have htt : pyTitle "True" = "True" := rfl
  have hpt : pyTitle "False" = "False" := rfl
  refine ⟨?_, ?_, rfl, by simp [oocBudget, Nat.mul_assoc], rfl, rfl⟩
  · simp [initRay, coerceObjectStoreMemory, h, htt]
  · simp [initRay, coerceObjectStoreMemory, h, hpt]

/-- C3 (witness): an explicit override of 12345 bytes wins even with
out-of-core set, while the spill directory is still configured. -/
theorem c3_memory_budget_priority_witness :
    initRay ⟨Option.none, Option.none, some "12345", some "True"⟩ (2 * 10 ^ 9)
        "/tmp" "MainThread" =
      Except.ok [RayOp.init (some "/tmp") (some 12345) Option.none,
        RayOp.register_custom_serializer, RayOp.run_function_on_all_workers] :=
  (c3_memory_budget_priority "12345" 12345 (2 * 10 ^ 9) "/tmp" (by decide)).1

/-- C4 (counterexample): an explicit override of `"0"` is forwarded to
`ray.init` as `object_store_memory = 0` — the `== 0 → None` guard sits only
on the in-core branch, so a zero-sized store request does reach the backend,
contradicting the claim. -/
theorem c4_zero_forwarded_counterexample :
    initRay ⟨Option.none, Option.none, some "0", Option.none⟩ (10 ^ 10) "/tmp"
        "MainThread" =
      Except.ok [RayOp.init Option.none (some 0) Option.none,
        RayOp.register_custom_serializer, RayOp.run_function_on_all_workers] ∧
    some (0 : ℤ) ≠ (Option.none : Option ℤ) :=
  ⟨rfl, by decide⟩

/-- C4 (amended): the zero-candidate → `None` replacement applies only to
the in-core computed candidate (no override, not out-of-core) — there a zero
candidate, in particular `systemMemoryBytes = 500_000_000`, yields a `None`
budget; but an explicit override of `"0"` is forwarded as `0`, and in
out-of-core mode with under 1 GB of system memory the derived candidate `0`
is also forwarded as `0`. -/
theorem c4_zero_budget_amended (m m2 m3 : ℕ) (td : String)
    (h : inCoreBudget m = 0) (h3 : m3 < 10 ^ 9) :
    initRay ⟨Option.none, Option.none, Option.none, Option.none⟩ m td "MainThread" =
      Except.ok [RayOp.init Option.none Option.none Option.none,
        RayOp.register_custom_serializer, RayOp.run_function_on_all_workers] ∧
    initRay ⟨Option.none, Option.none, Option.none, Option.none⟩ (5 * 10 ^ 8) td
        "MainThread" =
      Except.ok [RayOp.init Option.none Option.none Option.none,
        RayOp.register_custom_serializer, RayOp.run_function_on_all_workers] ∧
    initRay ⟨Option.none, Option.none, some "0", Option.none⟩ m2 td "MainThread" =
      Except.ok [RayOp.init Option.none (some 0) Option.none,
        RayOp.register_custom_serializer, RayOp.run_function_on_all_workers] ∧
    initRay ⟨Option.none, Option.none, Option.none, some "True"⟩ m3 td "MainThread" =
      Except.ok [RayOp.init (some td) (some 0) Option.none,
        RayOp.register_custom_serializer, RayOp.run_function_on_all_workers] := by
  have htt : pyTitle "True" = "True" := rfl
  have hpt : pyTitle "False" = "False" := rfl
  have hzero : oocBudget m3 = 0 := by
    unfold oocBudget
    rw [Nat.div_eq_of_lt h3]
    simp
  refine ⟨?_, rfl, rfl, ?_⟩
  · simp [initRay, coerceObjectStoreMemory, h, hpt]
  · simp [initRay, coerceObjectStoreMemory, htt, hzero]

/-- C4 (witness): the amended theorem at 500 MB in-core (budget `None`) and
500 MB out-of-core (budget forwarded as `0`). -/
theorem c4_zero_budget_amended_witness :
    initRay ⟨Option.none, Option.none, Option.none, Option.none⟩ (5 * 10 ^ 8) "/tmp"
        "MainThread" =
      Except.ok [RayOp.init Option.none Option.none Option.none,
        RayOp.register_custom_serializer, RayOp.run_function_on_all_workers] ∧
    initRay ⟨Option.none, Option.none, Option.none, some "True"⟩ (5 * 10 ^ 8) "/tmp"
        "MainThread" =
      Except.ok [RayOp.init (some "/tmp") (some 0) Option.none,
        RayOp.register_custom_serializer, RayOp.run_function_on_all_workers] :=
  ⟨(c4_zero_budget_amended (5 * 10 ^ 8) 0 (5 * 10 ^ 8) "/tmp" (by decide) (by decide)).1,
   (c4_zero_budget_amended (5 * 10 ^ 8) 0 (5 * 10 ^ 8) "/tmp" (by decide) (by decide)).2.2.2⟩

/-- C5 (counterexample): at 16 GiB of system memory with no override and no
out-of-core, the computed budget is 10_000_000_000, not the claimed
9_000_000_000: the source floors `0.6 × 17_179_869_184 = 10_307_921_510.4`
to whole gigabytes directly — it never pre-rounds system memory to 16e9. -/
theorem c5_sixteen_gib_counterexample :
    initRay ⟨Option.none, Option.none, Option.none, Option.none⟩ 17179869184 "/tmp"
        "MainThread" =
      Except.ok [RayOp.init Option.none (some 10000000000) Option.none,
        RayOp.register_custom_serializer, RayOp.run_function_on_all_workers] ∧
    (10000000000 : ℤ) ≠ 9000000000 :=
  ⟨rfl, by decide⟩

/-- C5 (amended): for `systemMemoryBytes = 17_179_869_184` the in-core
budget equals 10_000_000_000, because the implementation computes
`⌊0.6 × systemMemoryBytes / 1e9⌋ × 1e9` on the raw byte count (one floor at
the end, no prior rounding of system memory to whole gigabytes). -/
theorem c5_sixteen_gib_amended (m : ℕ) (td : String) :
    inCoreBudget 17179869184 = 10000000000 ∧
    initRay ⟨Option.none, Option.none, Option.none, Option.none⟩ 17179869184 td
        "MainThread" =
      Except.ok [RayOp.init Option.none (some 10000000000) Option.none,
        RayOp.register_custom_serializer, RayOp.run_function_on_all_workers] ∧
    inCoreBudget m = ⌊(0.6 : ℚ) * m / 10 ^ 9⌋₊ * 10 ^ 9 := by
  refine ⟨rfl, rfl, ?_⟩
  have harg : (0.6 : ℚ) * m / 10 ^ 9 = ((3 * m : ℕ) : ℚ) / ((5 * 10 ^ 9 : ℕ) : ℚ) := by
    push_cast
    ring
  simp only [inCoreBudget]
  rw [harg, Nat.floor_div_eq_div]

/-- C9: importing with a pandas version other than `"0.25.2"` (exact string
comparison) raises the `ImportError` before any re-export or bootstrap step;
with the matching version the import proceeds into the re-export block
regardless of the engine. -/
theorem c9_pandas_version_gate (v e : String) (cfg : RayConfig) (m : ℕ)
    (td th : String) (q : ℚ) (d : ℕ) (h : v ≠ requiredPandasVersion) :
    modinImport v e cfg m td th q d = ([], Except.error pandasMismatchMsg) ∧
    (modinImport requiredPandasVersion e cfg m td th q d).1.take 1 =
      [Step.reExports] := by
  have h1 : (v != requiredPandasVersion) = true := bne_iff_ne.mpr h
  exact ⟨by simp [modinImport, h1], rfl⟩

/-- C9 (witness): pandas 0.24.0 is rejected before any other work. -/
theorem c9_pandas_version_gate_witness :
    modinImport "0.24.0" "Python" ⟨Option.none, Option.none, Option.none, Option.none⟩
        0 "/tmp" "MainThread" 1 0 = ([], Except.error pandasMismatchMsg) :=
  (c9_pandas_version_gate "0.24.0" "Python"
    ⟨Option.none, Option.none, Option.none, Option.none⟩ 0 "/tmp" "MainThread" 1 0
    (by decide)).1

/-- C10: for every engine string the first two steps of a successful import
are the re-export block and the write of `OMP_NUM_THREADS` to `"1"` — the
environment write precedes the engine dispatch — and on the `"Python"`
no-cluster path the trace is exactly those two steps, so no other
environment variable is touched. -/
theorem c10_omp_num_threads_env (e : String) (cfg : RayConfig) (m : ℕ)
    (td th : String) (q : ℚ) (d : ℕ) :
    (modinImport "0.25.2" e cfg m td th q d).1.take 2 =
      [Step.reExports, Step.envSet "OMP_NUM_THREADS" "1"] ∧
    (modinImport "0.25.2" "Python" cfg m td th q d).1 =
      [Step.reExports, Step.envSet "OMP_NUM_THREADS" "1"] :=
  ⟨rfl, rfl⟩

/-- C8 (witness): the amended theorem at the parseable negative override
`"-5"` and the non-numeric override `"abc"`. -/
theorem c8_override_coercion_amended_witness :
    initRay ⟨Option.none, Option.none, some "-5", Option.none⟩ (10 ^ 9) "/tmp"
        "MainThread" =
      Except.ok [RayOp.init Option.none (some (-5)) Option.none,
        RayOp.register_custom_serializer, RayOp.run_function_on_all_workers] ∧
    initRay ⟨Option.none, Option.none, some "abc", Option.none⟩ (10 ^ 9) "/tmp"
        "MainThread" =
      Except.error ("ValueError: invalid literal for int with base 10: " ++ "abc") :=
  c8_override_coercion_amended "-5" "abc" (-5) (10 ^ 9) "/tmp" (by decide) (by decide)

end Modin
